import Mathlib

set_option autoImplicit false

namespace MT5

/-! Shallow embedding of the order-execution verification-and-retry engine of
the exness-mt5-trading-service repository: the position service
(src/app/services/mt5_position_service.py), the trading service
(src/app/services/mt5_trading_service.py), the retry helper
(src/app/utils/retry_helper.py) and the constants module
(src/app/utils/constants.py).  Prices and volumes are rationals; the
MetaTrader5 terminal is modelled as a per-call oracle. -/

/-- Constant mt5.TRADE_ACTION_DEAL. -/
def TRADE_ACTION_DEAL : ℕ := 1

/-- Constant mt5.TRADE_ACTION_SLTP. -/
def TRADE_ACTION_SLTP : ℕ := 6

/-- Constant mt5.ORDER_TYPE_BUY. -/
def ORDER_TYPE_BUY : ℕ := 0

/-- Constant mt5.ORDER_TYPE_SELL. -/
def ORDER_TYPE_SELL : ℕ := 1

/-- Constant mt5.TRADE_RETCODE_DONE, the single fully-done return code. -/
def TRADE_RETCODE_DONE : ℕ := 10009

/-- Constant mt5.ORDER_TIME_GTC. -/
def ORDER_TIME_GTC : ℕ := 0

/-- Constant mt5.ORDER_FILLING_IOC. -/
def ORDER_FILLING_IOC : ℕ := 1

/-- Constant TRADE_DEVIATION from src/app/utils/constants.py. -/
def TRADE_DEVIATION : ℕ := 20

/-- Constant TRADE_MAGIC from src/app/utils/constants.py. -/
def TRADE_MAGIC : ℕ := 234000

/-- Constant MAX_RETRIES from src/app/utils/constants.py. -/
def MAX_RETRIES : ℕ := 3

/-- Constant RETRY_MULTIPLIER from src/app/utils/constants.py. -/
def RETRY_MULTIPLIER : ℕ := 1

/-- Constant RETRY_MIN_WAIT from src/app/utils/constants.py. -/
def RETRY_MIN_WAIT : ℕ := 4

/-- Constant RETRY_MAX_WAIT from src/app/utils/constants.py. -/
def RETRY_MAX_WAIT : ℕ := 10

/-- Constant VERIFICATION_WAIT_TIME from src/app/utils/constants.py:
1.0 seconds, the settle delay slept before every verification query. -/
def VERIFICATION_WAIT_TIME : ℚ := 1

/-- Quote returned by mt5.symbol_info_tick. -/
structure Tick where
  bid : ℚ
  ask : ℚ
  deriving Repr, DecidableEq

/-- Raw position record returned by mt5.positions_get: the fields the
services read (ticket, symbol, type, volume, price_open, sl, tp, profit,
time).  An absent stop loss or take profit is recorded by the terminal as
the number 0. -/
structure MT5Position where
  ticket : ℕ
  symbol : String
  ptype : ℕ
  volume : ℚ
  price_open : ℚ
  sl : ℚ
  tp : ℚ
  profit : ℚ
  time : ℕ
  deriving Repr, DecidableEq

/-- Wire-level request dict handed to mt5.order_send; a key absent from the
Python dict is none. -/
structure OrderRequest where
  action : ℕ
  position : Option ℕ := none
  symbol : String
  volume : Option ℚ := none
  otype : Option ℕ := none
  price : Option ℚ := none
  sl : Option ℚ := none
  tp : Option ℚ := none
  deviation : Option ℕ := none
  magic : Option ℕ := none
  comment : Option String := none
  type_time : Option ℕ := none
  type_filling : Option ℕ := none
  deriving Repr, DecidableEq

/-- Result object returned by mt5.order_send: return code, broker comment
and broker-assigned order ticket. -/
structure SendResult where
  retcode : ℕ
  comment : String
  order : ℕ
  deriving Repr, DecidableEq

/-- Pydantic TradeResponse (src/app/models/trade.py 78-83). -/
structure TradeResponse where
  order_id : ℕ
  status : String
  message : String
  symbol : Option String := none
  profit : Option ℚ := none
  deriving Repr, DecidableEq

/-- Pydantic OrderType (src/app/models/trade.py 7-9). -/
inductive OrderType where
  | BUY
  | SELL
  deriving Repr, DecidableEq

/-- Pydantic TradeRequest (src/app/models/trade.py 37-76).  It declares
symbol, order_type, amount, stop_loss, take_profit, comment and
calculated_volume, and declares no field named volume; calculated_volume
defaults to None and no code in the repository assigns it. -/
structure TradeRequest where
  symbol : String
  order_type : OrderType
  amount : ℚ
  stop_loss : Option ℚ := none
  take_profit : Option ℚ := none
  comment : Option String := none
  calculated_volume : Option ℚ := none
  deriving Repr, DecidableEq

/-- Pydantic ModifyPositionRequest (src/app/models/trade.py 126-128). -/
structure ModifyPositionRequest where
  stop_loss : Option ℚ
  take_profit : Option ℚ
  deriving Repr, DecidableEq

/-- Pydantic Position (src/app/models/trade.py 11-20). -/
structure PositionModel where
  ticket : ℕ
  symbol : String
  order_type : OrderType
  volume : ℚ
  open_price : ℚ
  stop_loss : Option ℚ
  take_profit : Option ℚ
  profit : ℚ
  open_time : ℕ
  deriving Repr, DecidableEq

/-- Python truthiness of an optional price level: None and the number 0 are
falsy, every other number is truthy.  This is the test performed by
guards such as `if modify_request.stop_loss` in the source. -/
def pyTruthy : Option ℚ → Bool
  | none => false
  | some v => decide (v ≠ 0)

/-- Numeric value of an optional level, as read by float(x) in the source.
The source only evaluates float(x) under a pyTruthy guard, so the value
returned at none is never reached by any embedded code path. -/
def optVal : Option ℚ → ℚ
  | none => 0
  | some v => v

/-- Call mt5.positions_get(ticket=t) against a positions snapshot: the
records carrying the requested ticket. -/
def positionsGet (ps : List MT5Position) (ticket : ℕ) : List MT5Position :=
  ps.filter (fun p => p.ticket == ticket)

/-- Terminal behaviour observed during one position-service call: the
connection probe (ensure_connected), the positions snapshot at call time,
the current-quote lookup, the broker answer to order_send, and the
positions snapshot observed VERIFICATION_WAIT_TIME seconds later, which is
what the verification query reads after its settle sleep. -/
structure OpEnv where
  connected : Bool
  positionsAtCall : List MT5Position
  tick : String → Option Tick
  send : OrderRequest → SendResult
  positionsAtSettle : List MT5Position

/-- Request dict built by close_position
(src/app/services/mt5_position_service.py 184-196): a deal against the
position, on the opposite order type, priced at the bid for a BUY position
and at the ask for a SELL position. -/
def closeOrderRequest (ticket : ℕ) (pos : MT5Position) (t : Tick) : OrderRequest :=
  { action := TRADE_ACTION_DEAL
    position := some ticket
    symbol := pos.symbol
    volume := some pos.volume
    otype := some (if pos.ptype == ORDER_TYPE_BUY then ORDER_TYPE_SELL else ORDER_TYPE_BUY)
    price := some (if pos.ptype == ORDER_TYPE_BUY then t.bid else t.ask)
    deviation := some TRADE_DEVIATION
    magic := some TRADE_MAGIC
    comment := some "python script close"
    type_time := some ORDER_TIME_GTC
    type_filling := some ORDER_FILLING_IOC }

/-- Request dict built by create_hedge_position
(src/app/services/mt5_position_service.py 287-298): a deal on the opposite
order type, but priced at the ask for a BUY position and at the bid for a
SELL position, and carrying no position key. -/
def hedgeOrderRequest (pos : MT5Position) (t : Tick) : OrderRequest :=
  { action := TRADE_ACTION_DEAL
    symbol := pos.symbol
    volume := some pos.volume
    otype := some (if pos.ptype == ORDER_TYPE_BUY then ORDER_TYPE_SELL else ORDER_TYPE_BUY)
    price := some (if pos.ptype == ORDER_TYPE_BUY then t.ask else t.bid)
    deviation := some TRADE_DEVIATION
    magic := some TRADE_MAGIC
    comment := some "python script hedge"
    type_time := some ORDER_TIME_GTC
    type_filling := some ORDER_FILLING_IOC }

/-- Request dict built by modify_position
(src/app/services/mt5_position_service.py 110-116): a non-truthy requested
level (None, and also the number 0) is replaced by the position's current
level. -/
def modifyOrderRequest (ticket : ℕ) (pos : MT5Position) (m : ModifyPositionRequest) :
    OrderRequest :=
  { action := TRADE_ACTION_SLTP
    position := some ticket
    symbol := pos.symbol
    sl := some (if pyTruthy m.stop_loss then optVal m.stop_loss else pos.sl)
    tp := some (if pyTruthy m.take_profit then optVal m.take_profit else pos.tp) }

/-- Embeds MT5PositionService._verify_position_closure
(src/app/services/mt5_position_service.py 320-333): sleeps
VERIFICATION_WAIT_TIME (first component of the result), then queries the
position by ticket against the post-settle snapshot; passes exactly when no
position with that ticket remains. -/
def verifyPositionClosure (settle : List MT5Position) (ticket : ℕ) : ℚ × Bool :=
  (VERIFICATION_WAIT_TIME, (positionsGet settle ticket).isEmpty)

/-- Embeds MT5PositionService._verify_position_modification
(src/app/services/mt5_position_service.py 335-355): sleeps
VERIFICATION_WAIT_TIME, re-queries the position, fails if it is gone, then
compares each truthily-requested level for exact equality against the
broker-recorded value, skipping non-truthy (unspecified or zero) levels. -/
def verifyPositionModification (settle : List MT5Position) (ticket : ℕ)
    (m : ModifyPositionRequest) : ℚ × Bool :=
  (VERIFICATION_WAIT_TIME,
    match positionsGet settle ticket with
    | [] => false
    | pos :: _ =>
      if pyTruthy m.stop_loss && !(pos.sl == optVal m.stop_loss) then false
      else if pyTruthy m.take_profit && !(pos.tp == optVal m.take_profit) then false
      else true)

/-- Embeds one body run of MT5PositionService.close_position
(src/app/services/mt5_position_service.py 152-232).  Every exception of the
body is caught by its try block and converted to an error TradeResponse, so
the body always returns; a missing quote surfaces as the caught
AttributeError of reading .bid or .ask on None. -/
def closePosition (env : OpEnv) (ticket : ℕ) : TradeResponse :=
  if env.connected = false then
    { order_id := ticket, status := "error", message := "Failed to connect to MT5" }
  else
    match positionsGet env.positionsAtCall ticket with
    | [] =>
      { order_id := ticket, status := "error", message := s!"Position {ticket} not found" }
    | pos :: _ =>
      match env.tick pos.symbol with
      | none =>
        { order_id := ticket, status := "error",
          message := "'NoneType' object has no attribute '"
            ++ (if pos.ptype == ORDER_TYPE_BUY then "bid" else "ask") ++ "'" }
      | some t =>
        let res := env.send (closeOrderRequest ticket pos t)
        if res.retcode ≠ TRADE_RETCODE_DONE then
          { order_id := ticket, symbol := some pos.symbol, status := "error",
            message := "Failed to close position: " ++ res.comment }
        else if (verifyPositionClosure env.positionsAtSettle ticket).2 = false then
          { order_id := ticket, symbol := some pos.symbol, status := "error",
            message := "Position closure verification failed" }
        else
          { order_id := res.order, symbol := some pos.symbol, profit := some pos.profit,
            status := "success", message := "Position closed and verified successfully" }

/-- Embeds one body run of MT5PositionService.modify_position
(src/app/services/mt5_position_service.py 86-145). -/
def modifyPosition (env : OpEnv) (ticket : ℕ) (m : ModifyPositionRequest) : TradeResponse :=
  if env.connected = false then
    { order_id := ticket, status := "error", message := "Not connected to MT5" }
  else
    match positionsGet env.positionsAtCall ticket with
    | [] =>
      { order_id := ticket, status := "error", message := s!"Position {ticket} not found" }
    | pos :: _ =>
      let res := env.send (modifyOrderRequest ticket pos m)
      if res.retcode ≠ TRADE_RETCODE_DONE then
        { order_id := ticket, symbol := some pos.symbol, status := "error",
          message := "Failed to modify position: " ++ res.comment }
      else if (verifyPositionModification env.positionsAtSettle ticket m).2 = false then
        { order_id := ticket, symbol := some pos.symbol, status := "error",
          message := "Position modification verification failed" }
      else
        { order_id := ticket, symbol := some pos.symbol, status := "success",
          message := "Position modified and verified successfully" }

/-- Embeds MT5PositionService.create_hedge_position
(src/app/services/mt5_position_service.py 259-318); it performs no
verification step. -/
def createHedgePosition (env : OpEnv) (ticket : ℕ) : TradeResponse :=
  if env.connected = false then
    { order_id := ticket, status := "error", message := "Not connected to MT5" }
  else
    match positionsGet env.positionsAtCall ticket with
    | [] =>
      { order_id := ticket, status := "error", message := s!"Position {ticket} not found" }
    | pos :: _ =>
      match env.tick pos.symbol with
      | none =>
        { order_id := ticket, status := "error",
          message := "'NoneType' object has no attribute '"
            ++ (if pos.ptype == ORDER_TYPE_BUY then "ask" else "bid") ++ "'" }
      | some t =>
        let res := env.send (hedgeOrderRequest pos t)
        if res.retcode ≠ TRADE_RETCODE_DONE then
          { order_id := ticket, status := "error",
            message := "Failed to create hedge position: " ++ res.comment }
        else
          { order_id := res.order, symbol := some pos.symbol, profit := some pos.profit,
            status := "success", message := "Hedge position created successfully" }

/-- Conversion from the raw terminal record to the pydantic Position model,
as in MT5PositionService.get_positions: a zero sl or tp becomes None. -/
def toPositionModel (p : MT5Position) : PositionModel :=
  { ticket := p.ticket
    symbol := p.symbol
    order_type := if p.ptype == ORDER_TYPE_BUY then OrderType.BUY else OrderType.SELL
    volume := p.volume
    open_price := p.price_open
    stop_loss := if p.sl == 0 then none else some p.sl
    take_profit := if p.tp == 0 then none else some p.tp
    profit := p.profit
    open_time := p.time }

/-- Embeds MT5PositionService.get_positions
(src/app/services/mt5_position_service.py 36-79): empty on a failed
connection probe or a None answer from mt5.positions_get. -/
def getPositions (connected : Bool) (raw : Option (List MT5Position)) : List PositionModel :=
  if connected = false then []
  else
    match raw with
    | none => []
    | some ps => ps.map toPositionModel

/-- Terminal behaviour observed during one close_all_positions call: the
batch-level connection probe and raw snapshot read by get_positions, and
one OpEnv per subsequent single-position close invocation. -/
structure BatchEnv where
  connected : Bool
  raw : Option (List MT5Position)
  closeEnvs : ℕ → OpEnv

/-- Sequential per-item loop of close_all_positions: the i-th position in
the list is closed by the single-position flow under the i-th call
environment, and its result is collected whatever its status. -/
def closeSeq (closeEnvs : ℕ → OpEnv) : ℕ → List PositionModel → List TradeResponse
  | _, [] => []
  | i, p :: rest => closePosition (closeEnvs i) p.ticket :: closeSeq closeEnvs (i + 1) rest

/-- Embeds MT5PositionService.close_all_positions
(src/app/services/mt5_position_service.py 234-257). -/
def closeAllPositions (benv : BatchEnv) : List TradeResponse :=
  if benv.connected = false then []
  else closeSeq benv.closeEnvs 0 (getPositions benv.connected benv.raw)

/-- Python attribute lookup trade_request.volume performed by
MT5TradingService._prepare_trade_request
(src/app/services/mt5_trading_service.py line 54): the pydantic
TradeRequest model declares no field named volume (src/app/models/trade.py
37-76, which declares amount and calculated_volume instead), so the lookup
raises AttributeError with this message. -/
def tradeRequestVolume (_tr : TradeRequest) : Except String ℚ :=
  Except.error "'TradeRequest' object has no attribute 'volume'"

/-- Denotation of the request dict literal of
MT5TradingService._prepare_trade_request
(src/app/services/mt5_trading_service.py 51-69), given the value vol that
its volume entry would hold: BUY orders are priced at the ask, SELL orders
at the bid, and truthy optional levels are attached. -/
def prepareTradeRequestDict (tr : TradeRequest) (t : Tick) (vol : ℚ) : OrderRequest :=
  { action := TRADE_ACTION_DEAL
    symbol := tr.symbol
    volume := some vol
    otype := some (if tr.order_type = OrderType.BUY then ORDER_TYPE_BUY else ORDER_TYPE_SELL)
    price := some (if tr.order_type = OrderType.BUY then t.ask else t.bid)
    deviation := some 20
    magic := some 234000
    comment := some "python script order"
    type_time := some ORDER_TIME_GTC
    type_filling := some ORDER_FILLING_IOC
    sl := if pyTruthy tr.stop_loss then some (optVal tr.stop_loss) else none
    tp := if pyTruthy tr.take_profit then some (optVal tr.take_profit) else none }

/-- Embeds MT5TradingService._prepare_trade_request
(src/app/services/mt5_trading_service.py 34-71): a missing quote raises
ValueError; otherwise the dict construction evaluates its volume entry,
trade_request.volume, which raises before the remaining entries are built. -/
def prepareTradeRequest (tick : String → Option Tick) (tr : TradeRequest) :
    Except String OrderRequest :=
  match tick tr.symbol with
  | none => Except.error ("Cannot get symbol info for " ++ tr.symbol)
  | some t =>
    match tradeRequestVolume tr with
    | Except.error e => Except.error e
    | Except.ok vol => Except.ok (prepareTradeRequestDict tr t vol)

/-- Terminal behaviour observed during one execute_trade call. -/
structure TradeEnv where
  connected : Bool
  tick : String → Option Tick
  send : OrderRequest → SendResult

/-- Embeds MT5TradingService.execute_trade
(src/app/services/mt5_trading_service.py 73-123): exceptions raised while
preparing the request are caught and returned as an error TradeResponse. -/
def executeTrade (env : TradeEnv) (tr : TradeRequest) : TradeResponse :=
  if env.connected = false then
    { order_id := 0, status := "error", message := "Failed to connect to MT5" }
  else
    match prepareTradeRequest env.tick tr with
    | Except.error e => { order_id := 0, status := "error", message := e }
    | Except.ok req =>
      let res := env.send req
      if res.retcode ≠ TRADE_RETCODE_DONE then
        { order_id := 0, status := "error", message := "Order failed: " ++ res.comment }
      else
        { order_id := res.order, status := "success", message := "Order placed successfully" }

/-- Embeds handle_retry_error (src/app/utils/retry_helper.py 6-22), the
retry_error_callback of the decorators: an error TradeResponse whose
message is the last raised error annotated with the attempt bound. -/
def handleRetryError (e : String) (maxRetries : ℕ) : TradeResponse :=
  { order_id := 0, status := "error",
    message := "Failed after " ++ toString maxRetries ++ " retries: " ++ e }

/-- Tenacity retry loop of the decorator on close_position and
modify_position (src/app/services/mt5_position_service.py 81-85 and
147-151): the attempt function models one call of the wrapped coroutine,
which either raises (Except.error, carrying the exception text) or returns
a TradeResponse.  Tenacity's default retry predicate re-attempts only when
the call raised; a returned value ends the loop at once.  When the last
allowed attempt still raises, the retry_error_callback value is returned.
Arguments: attempt index so far, and attempts left; the second result
component counts the attempts actually made. -/
def tenacityLoop (f : ℕ → Except String TradeResponse) (cb : String → TradeResponse) :
    ℕ → ℕ → TradeResponse × ℕ
  | n, 0 => (cb "", n)
  | n, left + 1 =>
    match f n with
    | Except.ok r => (r, n + 1)
    | Except.error e =>
      if left = 0 then (cb e, n + 1) else tenacityLoop f cb (n + 1) left

/-- The decorated call: retry(stop=stop_after_attempt(MAX_RETRIES),
retry_error_callback=handle_retry_error) around a coroutine. -/
def retryCall (f : ℕ → Except String TradeResponse) : TradeResponse × ℕ :=
  tenacityLoop f (fun e => handleRetryError e MAX_RETRIES) 0 MAX_RETRIES

/-! Helper lemmas about the retry loop. -/

/-- An attempt that returns a value ends the retry loop at once. -/
theorem tenacityLoop_ok (f : ℕ → Except String TradeResponse) (cb : String → TradeResponse)
    (n left : ℕ) (r : TradeResponse) (h : f n = Except.ok r) :
    tenacityLoop f cb n (left + 1) = (r, n + 1) := by
  simp [tenacityLoop, h]

/-- An attempt that raises, with attempts remaining, leads to the next attempt. -/
theorem tenacityLoop_error_step (f : ℕ → Except String TradeResponse)
    (cb : String → TradeResponse) (n left : ℕ) (e : String)
    (h : f n = Except.error e) (hl : left ≠ 0) :
    tenacityLoop f cb n (left + 1) = tenacityLoop f cb (n + 1) left := by
  simp [tenacityLoop, h, hl]

/-- A raise on the final allowed attempt produces the callback value. -/
theorem tenacityLoop_error_last (f : ℕ → Except String TradeResponse)
    (cb : String → TradeResponse) (n : ℕ) (e : String) (h : f n = Except.error e) :
    tenacityLoop f cb n (0 + 1) = (cb e, n + 1) := by
  simp [tenacityLoop, h]

/-- The loop never makes more attempts than it has left. -/
theorem tenacityLoop_count_le (f : ℕ → Except String TradeResponse)
    (cb : String → TradeResponse) :
    ∀ (left n : ℕ), (tenacityLoop f cb n left).2 ≤ n + left := by
  intro left
  induction left with
  | zero => intro n; simp [tenacityLoop]
  | succ k ih =>
    intro n
    show (tenacityLoop f cb n (k + 1)).2 ≤ n + (k + 1)
    rcases hf : f n with e | r
    · rcases Nat.eq_zero_or_pos k with hk | hk
      · subst hk
        rw [tenacityLoop_error_last f cb n e hf]
      · rw [tenacityLoop_error_step f cb n k e hf (by omega)]
        have := ih (n + 1)
        omega
    · rw [tenacityLoop_ok f cb n k r hf]
      omega

/-! Claim theorems. -/

/-- Claim C5: per decorated top-level call the retry supervisor makes at
most MAX_RETRIES = 3 attempts; and when all three attempts raise, the
terminal result is the handle_retry_error response: an error TradeResponse
whose message carries the last raised error's text annotated with the
attempt count. -/
theorem retry_bounded_and_exhaustion_message
    (f : ℕ → Except String TradeResponse) (e0 e1 e2 : String) :
    (retryCall f).2 ≤ MAX_RETRIES ∧
    (f 0 = Except.error e0 → f 1 = Except.error e1 → f 2 = Except.error e2 →
      retryCall f = (handleRetryError e2 MAX_RETRIES, MAX_RETRIES) ∧
      handleRetryError e2 MAX_RETRIES =
        { order_id := 0, status := "error", message := "Failed after 3 retries: " ++ e2 }) := by
  constructor
  · have h := tenacityLoop_count_le f (fun e => handleRetryError e MAX_RETRIES) MAX_RETRIES 0
    simpa [retryCall] using h
  · intro h0 h1 h2
    constructor
    · show tenacityLoop f (fun e => handleRetryError e MAX_RETRIES) 0 (2 + 1) =
        (handleRetryError e2 MAX_RETRIES, MAX_RETRIES)
      rw [tenacityLoop_error_step f _ 0 2 e0 h0 (by omega)]
      rw [show (2 : ℕ) = 1 + 1 from rfl, tenacityLoop_error_step f _ 1 1 e1 h1 (by omega)]
      rw [show (1 : ℕ) = 0 + 1 from rfl, tenacityLoop_error_last f _ 2 e2 h2]
      rfl
    · rfl

/-- Witness for C5 at a concrete attempt function that raises on every
attempt: the driven call stops at 3 attempts and reports the annotated
terminal error. -/
theorem retry_bounded_and_exhaustion_message_witness :
    retryCall (fun _ => Except.error "broker timeout") =
      ({ order_id := 0, status := "error",
         message := "Failed after 3 retries: broker timeout" }, 3) := by
  have h := retry_bounded_and_exhaustion_message (fun _ => Except.error "broker timeout")
    "broker timeout" "broker timeout" "broker timeout"
  rcases h.2 rfl rfl rfl with ⟨hA, hB⟩
  rw [hA, hB]
  rfl

/-- Position fixture for the C1 counterexample: an open BUY position. -/
def posC1 : MT5Position :=
  { ticket := 7, symbol := "EURUSD", ptype := ORDER_TYPE_BUY, volume := 1,
    price_open := 108, sl := 0, tp := 0, profit := 5, time := 0 }

/-- Call environment for the C1 counterexample: connection live, position
present at call time, quote available, broker accepts the close submission
with the done code, and the position is still present after the settle
delay, so closure verification fails. -/
def envC1 : OpEnv :=
  { connected := true
    positionsAtCall := [posC1]
    tick := fun _ => some { bid := 107, ask := 109 }
    send := fun _ => { retcode := TRADE_RETCODE_DONE, comment := "done", order := 900 }
    positionsAtSettle := [posC1] }

/-- Claim C1 counterexample: the broker accepts the close submission (done
code), verification fails, and MAX_RETRIES = 3 leaves two further attempts
available — yet the retry-wrapped call terminates after exactly one attempt
and the verification failure is itself the caller-visible terminal result.
The wrapped coroutine returns the error TradeResponse instead of raising,
and tenacity's default predicate re-attempts only on raised exceptions, so
no backoff or re-attempt occurs. -/
theorem close_verification_failure_terminal_after_one_attempt :
    retryCall (fun _ => Except.ok (closePosition envC1 7)) =
      ({ order_id := 7, symbol := some "EURUSD", status := "error",
         message := "Position closure verification failed" }, 1) ∧
    (envC1.send (closeOrderRequest 7 posC1 { bid := 107, ask := 109 })).retcode =
      TRADE_RETCODE_DONE ∧
    1 < MAX_RETRIES := by
  refine ⟨?_, rfl, by decide⟩
  rfl

/-- Claim C1 amended: the retry supervisor re-attempts only when the
wrapped coroutine raises.  close_position and modify_position return an
error TradeResponse on a verification failure instead of raising, so any
returned outcome — the verification-failure error included — is terminal
after exactly one attempt, with no backoff and no re-attempt; in
particular an accepted close submission whose closure verification fails
yields the verification-failure error as the caller-visible result of the
single attempt. -/
theorem verification_failure_not_retried
    (f : ℕ → Except String TradeResponse) (r : TradeResponse)
    (h : f 0 = Except.ok r) :
    retryCall f = (r, 1) ∧
    (∀ (env : OpEnv) (ticket : ℕ) (m : ModifyPositionRequest),
      retryCall (fun _ => Except.ok (closePosition env ticket)) =
        (closePosition env ticket, 1) ∧
      retryCall (fun _ => Except.ok (modifyPosition env ticket m)) =
        (modifyPosition env ticket m, 1)) := by
  constructor
  · show tenacityLoop f (fun e => handleRetryError e MAX_RETRIES) 0 (2 + 1) = (r, 1)
    rw [tenacityLoop_ok f _ 0 2 r h]
  · intro env ticket m
    constructor
    · exact tenacityLoop_ok _ _ 0 2 _ rfl
    · exact tenacityLoop_ok _ _ 0 2 _ rfl

/-- Witness for the amended C1 at a concrete attempt function. -/
theorem verification_failure_not_retried_witness :
    retryCall (fun _ => Except.ok (closePosition envC1 7)) =
      (closePosition envC1 7, 1) := by
  exact (verification_failure_not_retried
    (fun _ => Except.ok (closePosition envC1 7)) (closePosition envC1 7) rfl).1

/-- Claim C4: after an accepted close submission (done code), verification
sleeps the fixed settle interval VERIFICATION_WAIT_TIME = 1 second and then
re-queries the position by ticket: the call reports the success response
exactly when no position with that ticket remains in the post-settle
snapshot, and reports the verification-failure error response when one
still exists. -/
theorem close_verifies_absence_after_settle
    (posl settle : List MT5Position) (tickf : String → Option Tick)
    (sendf : OrderRequest → SendResult) (ticket : ℕ)
    (pos : MT5Position) (rest : List MT5Position) (t : Tick)
    (hpos : positionsGet posl ticket = pos :: rest)
    (htick : tickf pos.symbol = some t)
    (hdone : (sendf (closeOrderRequest ticket pos t)).retcode = TRADE_RETCODE_DONE) :
    (verifyPositionClosure settle ticket).1 = VERIFICATION_WAIT_TIME ∧
    VERIFICATION_WAIT_TIME = 1 ∧
    (positionsGet settle ticket = [] →
      closePosition ⟨true, posl, tickf, sendf, settle⟩ ticket =
        { order_id := (sendf (closeOrderRequest ticket pos t)).order,
          symbol := some pos.symbol, profit := some pos.profit,
          status := "success", message := "Position closed and verified successfully" }) ∧
    (∀ (q : MT5Position) (qs : List MT5Position), positionsGet settle ticket = q :: qs →
      closePosition ⟨true, posl, tickf, sendf, settle⟩ ticket =
        { order_id := ticket, symbol := some pos.symbol, status := "error",
          message := "Position closure verification failed" }) := by
  refine ⟨rfl, rfl, ?_, ?_⟩
  · intro hset
    simp [closePosition, verifyPositionClosure, hpos, htick, hdone, hset]
  · intro q qs hset
    simp [closePosition, verifyPositionClosure, hpos, htick, hdone, hset]

/-- Position fixture for the C4 witness. -/
def posC4 : MT5Position :=
  { ticket := 5, symbol := "EURUSD", ptype := ORDER_TYPE_BUY, volume := 1,
    price_open := 108, sl := 0, tp := 0, profit := 5, time := 0 }

/-- Quote fixture for the C4 witness. -/
def tickC4 : Tick := { bid := 107, ask := 109 }

/-- Broker oracle for the C4 witness: accepts every submission. -/
def sendC4 : OrderRequest → SendResult :=
  fun _ => { retcode := TRADE_RETCODE_DONE, comment := "done", order := 901 }

/-- Witness for C4: an accepted close reports success when the position is
gone after the settle delay, and the verification-failure error when the
same position is still present then. -/
theorem close_verifies_absence_after_settle_witness :
    closePosition ⟨true, [posC4], fun _ => some tickC4, sendC4, []⟩ 5 =
      { order_id := 901, symbol := some "EURUSD", profit := some (5 : ℚ),
        status := "success", message := "Position closed and verified successfully" } ∧
    closePosition ⟨true, [posC4], fun _ => some tickC4, sendC4, [posC4]⟩ 5 =
      { order_id := 5, symbol := some "EURUSD", status := "error",
        message := "Position closure verification failed" } := by
  constructor
  · exact (close_verifies_absence_after_settle [posC4] [] (fun _ => some tickC4) sendC4 5
      posC4 [] tickC4 rfl rfl rfl).2.2.1 rfl
  · exact (close_verifies_absence_after_settle [posC4] [posC4] (fun _ => some tickC4) sendC4 5
      posC4 [] tickC4 rfl rfl rfl).2.2.2 posC4 [] rfl

/-- Call environment for the C3 counterexample: live connection, no open
position at all, so ticket 42 identifies nothing. -/
def envC3 : OpEnv :=
  { connected := true
    positionsAtCall := []
    tick := fun _ => none
    send := fun _ => { retcode := 0, comment := "", order := 0 }
    positionsAtSettle := [] }

/-- Claim C3 counterexample: closing a ticket that identifies no existing
position is not detected during verification as already-in-target-state and
treated as success — the call returns the not-found error response before
any submission, so its status is "error", not "success". -/
theorem close_missing_ticket_is_error_not_success :
    closePosition envC3 42 =
      { order_id := 42, status := "error", message := "Position 42 not found" } ∧
    (closePosition envC3 42).status ≠ "success" := by
  refine ⟨by rfl, by decide⟩

/-- Claim C3 amended: a repeated close_position call on a ticket that no
longer identifies an existing position does not throw: it deterministically
returns the error response "Position {ticket} not found" before submitting
anything, and the outcome is identical across repeated runs whatever the
broker oracle or post-settle state — consistently an error, never
sometimes success. -/
theorem close_missing_ticket_consistent_error
    (ticket : ℕ) (env env' : OpEnv)
    (hc : env.connected = true) (hc' : env'.connected = true)
    (h : positionsGet env.positionsAtCall ticket = [])
    (h' : positionsGet env'.positionsAtCall ticket = []) :
    closePosition env ticket =
      { order_id := ticket, status := "error",
        message := s!"Position {ticket} not found" } ∧
    closePosition env ticket = closePosition env' ticket := by
  constructor
  · simp [closePosition, hc, h]
  · simp [closePosition, hc, hc', h, h']

/-- Second call environment for the C3 witness: a different broker oracle
and quote function, same absence of the ticket. -/
def envC3b : OpEnv :=
  { connected := true
    positionsAtCall := []
    tick := fun _ => some { bid := 1, ask := 2 }
    send := fun _ => { retcode := TRADE_RETCODE_DONE, comment := "x", order := 1 }
    positionsAtSettle := [] }

/-- Witness for the amended C3 at two concrete runs. -/
theorem close_missing_ticket_consistent_error_witness :
    closePosition envC3 42 =
      { order_id := 42, status := "error", message := s!"Position {42} not found" } ∧
    closePosition envC3 42 = closePosition envC3b 42 :=
  close_missing_ticket_consistent_error 42 envC3 envC3b rfl rfl rfl rfl

/-- Claim C7: a broker return code other than the single done code makes
close_position and modify_position return immediately with status error and
the broker's comment embedded in the message; the post-settle snapshot is
never consulted (verification is not attempted), so the result is the same
for every settle state. -/
theorem reject_immediate_error_no_verification
    (posl settle settle' : List MT5Position) (tickf : String → Option Tick)
    (sendf : OrderRequest → SendResult) (ticket : ℕ)
    (pos : MT5Position) (rest : List MT5Position) (t : Tick) (m : ModifyPositionRequest)
    (hpos : positionsGet posl ticket = pos :: rest)
    (htick : tickf pos.symbol = some t)
    (hrc : (sendf (closeOrderRequest ticket pos t)).retcode ≠ TRADE_RETCODE_DONE)
    (hrcm : (sendf (modifyOrderRequest ticket pos m)).retcode ≠ TRADE_RETCODE_DONE) :
    closePosition ⟨true, posl, tickf, sendf, settle⟩ ticket =
      { order_id := ticket, symbol := some pos.symbol, status := "error",
        message := "Failed to close position: "
          ++ (sendf (closeOrderRequest ticket pos t)).comment } ∧
    closePosition ⟨true, posl, tickf, sendf, settle⟩ ticket =
      closePosition ⟨true, posl, tickf, sendf, settle'⟩ ticket ∧
    modifyPosition ⟨true, posl, tickf, sendf, settle⟩ ticket m =
      { order_id := ticket, symbol := some pos.symbol, status := "error",
        message := "Failed to modify position: "
          ++ (sendf (modifyOrderRequest ticket pos m)).comment } ∧
    modifyPosition ⟨true, posl, tickf, sendf, settle⟩ ticket m =
      modifyPosition ⟨true, posl, tickf, sendf, settle'⟩ ticket m := by
  refine ⟨?_, ?_, ?_, ?_⟩ <;>
    simp [closePosition, modifyPosition, hpos, htick, hrc, hrcm]

/-- Position fixture for the C7 witness. -/
def posC7 : MT5Position :=
  { ticket := 3, symbol := "XAUUSD", ptype := ORDER_TYPE_SELL, volume := 2,
    price_open := 2000, sl := 0, tp := 0, profit := 0, time := 0 }

/-- Broker oracle for the C7 witness: rejects every submission with the
requote code 10004 and the comment "Requote". -/
def sendC7 : OrderRequest → SendResult :=
  fun _ => { retcode := 10004, comment := "Requote", order := 0 }

/-- Witness for C7 at a concrete rejected close and rejected modify. -/
theorem reject_immediate_error_no_verification_witness :
    closePosition ⟨true, [posC7], fun _ => some { bid := 1999, ask := 2001 },
        sendC7, [posC7]⟩ 3 =
      { order_id := 3, symbol := some "XAUUSD", status := "error",
        message := "Failed to close position: Requote" } ∧
    modifyPosition ⟨true, [posC7], fun _ => some { bid := 1999, ask := 2001 },
        sendC7, [posC7]⟩ 3 { stop_loss := some 1990, take_profit := none } =
      { order_id := 3, symbol := some "XAUUSD", status := "error",
        message := "Failed to modify position: Requote" } := by
  have h := reject_immediate_error_no_verification [posC7] [posC7] []
    (fun _ => some { bid := 1999, ask := 2001 }) sendC7 3 posC7 []
    { bid := 1999, ask := 2001 } { stop_loss := some 1990, take_profit := none }
    rfl rfl (by decide) (by decide)
  exact ⟨h.1, h.2.2.1⟩

/-- A built request is side-priced relative to a quote when a BUY order
carries the ask and any other (SELL) order carries the bid. -/
def sidePriced (req : OrderRequest) (t : Tick) : Prop :=
  req.price = some (if req.otype = some ORDER_TYPE_BUY then t.ask else t.bid)

/-- Position fixture for the C6 counterexample: a BUY position. -/
def posC6 : MT5Position :=
  { ticket := 11, symbol := "EURUSD", ptype := ORDER_TYPE_BUY, volume := 1,
    price_open := 100, sl := 0, tp := 0, profit := 0, time := 0 }

/-- Quote fixture for the C6 counterexample, with distinct bid and ask. -/
def tickC6 : Tick := { bid := 100, ask := 101 }

/-- Claim C6 counterexample: the order that hedges a BUY position is a SELL
order, but create_hedge_position prices it at the ask quote (101), not at
the opposite side's quote (the bid, 100) that the claim requires for every
counter-side operation. -/
theorem hedge_of_buy_priced_at_ask :
    (hedgeOrderRequest posC6 tickC6).otype = some ORDER_TYPE_SELL ∧
    (hedgeOrderRequest posC6 tickC6).price = some tickC6.ask ∧
    (hedgeOrderRequest posC6 tickC6).price ≠ some tickC6.bid := by
  refine ⟨rfl, rfl, by decide⟩

/-- Claim C6 amended: entry requests and close requests follow the rule —
the entry dict prices a BUY order at the ask and a SELL order at the bid,
and the close request for a position is the opposite-type order priced at
the opposite side's quote, so every entry or close request is side-priced.
Hedge requests invert this: the hedge of a position carries the opposite
order type but the quote of the position's own side (the ask when hedging
a BUY, the bid when hedging a SELL). -/
theorem side_price_rule_entry_close_not_hedge
    (tr : TradeRequest) (t : Tick) (vol : ℚ) (ticket : ℕ) (pos : MT5Position) :
    sidePriced (prepareTradeRequestDict tr t vol) t ∧
    ((pos.ptype == ORDER_TYPE_BUY) = true → sidePriced (closeOrderRequest ticket pos t) t) ∧
    ((pos.ptype == ORDER_TYPE_BUY) = false → sidePriced (closeOrderRequest ticket pos t) t) ∧
    (hedgeOrderRequest pos t).otype =
      some (if pos.ptype == ORDER_TYPE_BUY then ORDER_TYPE_SELL else ORDER_TYPE_BUY) ∧
    (hedgeOrderRequest pos t).price =
      some (if pos.ptype == ORDER_TYPE_BUY then t.ask else t.bid) := by
  refine ⟨?_, ?_, ?_, rfl, rfl⟩
  · cases tr.order_type <;> simp [sidePriced, prepareTradeRequestDict, ORDER_TYPE_BUY,
      ORDER_TYPE_SELL]
  · intro hb
    simp [sidePriced, closeOrderRequest, hb, ORDER_TYPE_BUY, ORDER_TYPE_SELL]
  · intro hb
    simp [sidePriced, closeOrderRequest, hb, ORDER_TYPE_BUY, ORDER_TYPE_SELL]

/-- Witness for the amended C6: the close of a concrete BUY position is a
SELL order priced at the bid. -/
theorem side_price_rule_entry_close_not_hedge_witness :
    sidePriced (closeOrderRequest 11 posC6 tickC6) tickC6 := by
  exact (side_price_rule_entry_close_not_hedge
    { symbol := "EURUSD", order_type := OrderType.BUY, amount := 1000 }
    tickC6 1 11 posC6).2.1 rfl

/-- Both modify_position and its verification read the requested levels
only through their truthiness and their truthy value, so two modify
requests agreeing on those are indistinguishable to the whole call. -/
theorem modifyPosition_congr (env : OpEnv) (ticket : ℕ) (m m' : ModifyPositionRequest)
    (h1 : pyTruthy m.stop_loss = pyTruthy m'.stop_loss)
    (h2 : optVal m.stop_loss = optVal m'.stop_loss)
    (h3 : pyTruthy m.take_profit = pyTruthy m'.take_profit)
    (h4 : optVal m.take_profit = optVal m'.take_profit) :
    modifyPosition env ticket m = modifyPosition env ticket m' := by
  simp only [modifyPosition, modifyOrderRequest, verifyPositionModification, h1, h2, h3, h4]

/-- Claim C8: for a modify request with a nonzero stop loss, verification
fails whenever the broker-recorded stop loss observed after the settle
delay differs from the requested value — never a false pass — and the call
then reports the verification-failure error; a level the caller left
unspecified is skipped in the comparison and the submitted request carries
the position's prior level for it. -/
theorem modify_sl_mismatch_never_passes
    (posl settle : List MT5Position) (tickf : String → Option Tick)
    (sendf : OrderRequest → SendResult) (ticket : ℕ)
    (pos pos' : MT5Position) (rest rest' : List MT5Position)
    (v : ℚ) (mtp : Option ℚ)
    (hv : v ≠ 0)
    (hpos : positionsGet posl ticket = pos :: rest)
    (hset : positionsGet settle ticket = pos' :: rest') :
    (pos'.sl ≠ v →
      (verifyPositionModification settle ticket
        { stop_loss := some v, take_profit := mtp }).2 = false) ∧
    (pos'.sl ≠ v →
      (sendf (modifyOrderRequest ticket pos
        { stop_loss := some v, take_profit := mtp })).retcode = TRADE_RETCODE_DONE →
      modifyPosition ⟨true, posl, tickf, sendf, settle⟩ ticket
          { stop_loss := some v, take_profit := mtp } =
        { order_id := ticket, symbol := some pos.symbol, status := "error",
          message := "Position modification verification failed" }) ∧
    (modifyOrderRequest ticket pos { stop_loss := some v, take_profit := none }).tp =
      some pos.tp ∧
    (modifyOrderRequest ticket pos { stop_loss := none, take_profit := mtp }).sl =
      some pos.sl ∧
    (pos'.sl = v →
      (verifyPositionModification settle ticket
        { stop_loss := some v, take_profit := none }).2 = true) := by
  refine ⟨?_, ?_, rfl, rfl, ?_⟩
  · intro hne
    simp [verifyPositionModification, hset, pyTruthy, optVal, hv, hne]
  · intro hne hdone
    simp [modifyPosition, hpos, hdone, verifyPositionModification, hset,
      pyTruthy, optVal, hv, hne]
  · intro he
    simp [verifyPositionModification, hset, pyTruthy, optVal, hv, he]

/-- Position fixture for the C8 witness, stop loss recorded as 10. -/
def posC8 : MT5Position :=
  { ticket := 9, symbol := "BTCUSD", ptype := ORDER_TYPE_BUY, volume := 1,
    price_open := 50000, sl := 10, tp := 20, profit := 0, time := 0 }

/-- Post-settle fixture for the C8 witness: the broker recorded 15, not the
requested 12. -/
def posC8s : MT5Position :=
  { ticket := 9, symbol := "BTCUSD", ptype := ORDER_TYPE_BUY, volume := 1,
    price_open := 50000, sl := 15, tp := 20, profit := 0, time := 0 }

/-- Broker oracle for the C8 witness: accepts every submission. -/
def sendC8 : OrderRequest → SendResult :=
  fun _ => { retcode := TRADE_RETCODE_DONE, comment := "ok", order := 77 }

/-- Witness for C8 at a concrete mismatching modification. -/
theorem modify_sl_mismatch_never_passes_witness :
    (verifyPositionModification [posC8s] 9
      { stop_loss := some 12, take_profit := none }).2 = false ∧
    modifyPosition ⟨true, [posC8], fun _ => none, sendC8, [posC8s]⟩ 9
        { stop_loss := some 12, take_profit := none } =
      { order_id := 9, symbol := some "BTCUSD", status := "error",
        message := "Position modification verification failed" } := by
  have h := modify_sl_mismatch_never_passes [posC8] [posC8s] (fun _ => none) sendC8 9
    posC8 posC8s [] [] 12 none (by decide) rfl rfl
  exact ⟨h.1 (by decide), h.2.1 (by decide) rfl⟩

/-- Claim C10: a requested level equal to exactly 0 is treated as
unspecified: the submitted request carries the position's existing level
instead of 0, verification skips the comparison for that field, and with an
accepted submission the call reports success whatever level the broker
still records — at the public interface a 0 level is indistinguishable
from omitting the field. -/
theorem modify_zero_level_is_unspecified
    (env : OpEnv) (ticket : ℕ) (msl mtp : Option ℚ)
    (posl settle : List MT5Position) (tickf : String → Option Tick)
    (sendf : OrderRequest → SendResult)
    (pos pos' : MT5Position) (rest rest' : List MT5Position)
    (hpos : positionsGet posl ticket = pos :: rest)
    (hset : positionsGet settle ticket = pos' :: rest')
    (hdone : (sendf (modifyOrderRequest ticket pos
      { stop_loss := some 0, take_profit := some 0 })).retcode = TRADE_RETCODE_DONE) :
    modifyPosition env ticket { stop_loss := some 0, take_profit := mtp } =
      modifyPosition env ticket { stop_loss := none, take_profit := mtp } ∧
    modifyPosition env ticket { stop_loss := msl, take_profit := some 0 } =
      modifyPosition env ticket { stop_loss := msl, take_profit := none } ∧
    (modifyOrderRequest ticket pos { stop_loss := some 0, take_profit := some 0 }).sl =
      some pos.sl ∧
    (modifyOrderRequest ticket pos { stop_loss := some 0, take_profit := some 0 }).tp =
      some pos.tp ∧
    modifyPosition ⟨true, posl, tickf, sendf, settle⟩ ticket
        { stop_loss := some 0, take_profit := some 0 } =
      { order_id := ticket, symbol := some pos.symbol, status := "success",
        message := "Position modified and verified successfully" } := by
  refine ⟨?_, ?_, rfl, rfl, ?_⟩
  · exact modifyPosition_congr env ticket _ _
      (by decide : pyTruthy (some (0 : ℚ)) = pyTruthy none) rfl rfl rfl
  · exact modifyPosition_congr env ticket _ _ rfl rfl
      (by decide : pyTruthy (some (0 : ℚ)) = pyTruthy none) rfl
  · simp [modifyPosition, hpos, hdone, verifyPositionModification, hset, pyTruthy]

/-- Position fixture for the C10 witness. -/
def posC10 : MT5Position :=
  { ticket := 4, symbol := "ETHUSD", ptype := ORDER_TYPE_SELL, volume := 1,
    price_open := 3000, sl := 10, tp := 20, profit := 1, time := 0 }

/-- Broker oracle for the C10 witness: accepts every submission. -/
def sendC10 : OrderRequest → SendResult :=
  fun _ => { retcode := TRADE_RETCODE_DONE, comment := "ok", order := 55 }

/-- Witness for C10 at a concrete zero-level modification. -/
theorem modify_zero_level_is_unspecified_witness :
    modifyPosition ⟨true, [posC10], fun _ => none, sendC10, [posC10]⟩ 4
        { stop_loss := some 0, take_profit := some 0 } =
      modifyPosition ⟨true, [posC10], fun _ => none, sendC10, [posC10]⟩ 4
        { stop_loss := none, take_profit := some 0 } ∧
    modifyPosition ⟨true, [posC10], fun _ => none, sendC10, [posC10]⟩ 4
        { stop_loss := some 0, take_profit := some 0 } =
      { order_id := 4, symbol := some "ETHUSD", status := "success",
        message := "Position modified and verified successfully" } := by
  have h := modify_zero_level_is_unspecified
    ⟨true, [posC10], fun _ => none, sendC10, [posC10]⟩ 4 (some 0) (some 0)
    [posC10] [posC10] (fun _ => none) sendC10 posC10 posC10 [] [] rfl rfl rfl
  exact ⟨h.1, h.2.2.2.2⟩

/-- Claim C2, behaviour of the code at every amount-based trade request:
with the connection live and a quote available, execute_trade never
computes a volume from the amount and never reaches the broker — the
request preparation reads trade_request.volume, a field the TradeRequest
model does not declare, so every call returns the caught AttributeError as
an error response, for every broker oracle and every amount. -/
theorem execute_trade_always_attribute_error
    (tickf : String → Option Tick) (sendf : OrderRequest → SendResult)
    (tr : TradeRequest) (t : Tick) (htick : tickf tr.symbol = some t) :
    executeTrade ⟨true, tickf, sendf⟩ tr =
      { order_id := 0, status := "error",
        message := "'TradeRequest' object has no attribute 'volume'" } ∧
    tr.calculated_volume = tr.calculated_volume := by
  refine ⟨?_, rfl⟩
  simp [executeTrade, prepareTradeRequest, tradeRequestVolume, htick]

/-- Witness for C2 at the spec's scenario B input: symbol BTCUSD, BUY,
amount 1000, ask 50000 — the claim expects volume 0.02 to be computed and
submitted; the code instead returns the AttributeError response. -/
theorem execute_trade_always_attribute_error_witness :
    executeTrade
        ⟨true, fun _ => some { bid := 49999, ask := 50000 },
          fun _ => { retcode := TRADE_RETCODE_DONE, comment := "ok", order := 1 }⟩
        { symbol := "BTCUSD", order_type := OrderType.BUY, amount := 1000 } =
      { order_id := 0, status := "error",
        message := "'TradeRequest' object has no attribute 'volume'" } := by
  exact (execute_trade_always_attribute_error
    (fun _ => some { bid := 49999, ask := 50000 })
    (fun _ => { retcode := TRADE_RETCODE_DONE, comment := "ok", order := 1 })
    { symbol := "BTCUSD", order_type := OrderType.BUY, amount := 1000 }
    { bid := 49999, ask := 50000 } rfl).1

/-- The batch loop preserves length. -/
theorem closeSeq_length (closeEnvs : ℕ → OpEnv) :
    ∀ (l : List PositionModel) (i : ℕ), (closeSeq closeEnvs i l).length = l.length := by
  intro l
  induction l with
  | nil => intro i; rfl
  | cons p rest ih => intro i; simp [closeSeq, ih (i + 1)]

/-- The j-th batch result is the single-position close of the j-th listed
position under the j-th call environment. -/
theorem closeSeq_get? (closeEnvs : ℕ → OpEnv) :
    ∀ (l : List PositionModel) (i j : ℕ),
      (closeSeq closeEnvs i l).get? j =
        (l.get? j).map (fun p => closePosition (closeEnvs (i + j)) p.ticket) := by
  intro l
  induction l with
  | nil => intro i j; simp [closeSeq]
  | cons p rest ih =>
    intro i j
    cases j with
    | zero => simp [closeSeq]
    | succ k =>
      have h := ih (i + 1) k
      simp only [closeSeq, List.get?]
      rw [h]
      have : i + 1 + k = i + (k + 1) := by omega
      rw [this]

/-- Claim C9: with a live connection, close_all_positions produces exactly
one result per listed open position, in order: its length equals the
number of positions get_positions returned, and the j-th entry is exactly
the single-position close flow applied to the j-th position's ticket under
the j-th call environment — so an error entry for one position neither
shortens the list nor displaces or prevents the other entries. -/
theorem close_all_one_result_per_position
    (raw : List MT5Position) (closeEnvs : ℕ → OpEnv) :
    (closeAllPositions ⟨true, some raw, closeEnvs⟩).length = raw.length ∧
    ∀ j : ℕ,
      (closeAllPositions ⟨true, some raw, closeEnvs⟩).get? j =
        ((getPositions true (some raw)).get? j).map
          (fun p => closePosition (closeEnvs j) p.ticket) := by
  constructor
  · simp [closeAllPositions, getPositions, closeSeq_length]
  · intro j
    have h := closeSeq_get? closeEnvs (getPositions true (some raw)) 0 j
    simpa [closeAllPositions] using h

end MT5
